import Mathlib

/-!
Verification of the data-loading module of the BiLSTM_CRF repository
(src/lib/data.py). The module is glue code over the TensorFlow Dataset and
lookup-table APIs: its class Dataset normalizes constructor arguments,
builds two vocabulary lookup tables, and assembles a lazy pipeline
(read lines, map through tokenization and lookup, zip, optional shuffle,
padded batch, prefetch).

The shallow embedding below mirrors the Python code: dynamically typed
constructor arguments become the inductive PyVal; the constructor, which can
raise, returns Except; the assembled TensorFlow pipeline is represented by
the inductive Pipeline recording each framework call and the parameters the
repository passes to it. A small executable semantics of padded batching
(chunking plus zero padding, as configured by the padded_batch call) supports
the claims about the shape of produced batches.
-/

namespace BiLSTMCRF

/-- A dynamically typed Python value, as far as the constructor of Dataset
inspects its arguments: strings, integers, lists, and None. -/
inductive PyVal where
  | str (s : String)
  | int (n : Int)
  | list (xs : List PyVal)
  | none

/-- Python type check of the assertions in Dataset.__init__:
type(x) == str. -/
def PyVal.isStr : PyVal → Bool
  | PyVal.str _ => true
  | _ => false

/-- Python list("abc") = ["a", "b", "c"]: the list constructor applied to a
string yields the list of its one-character strings. -/
def pyListOfStr (s : String) : PyVal :=
  PyVal.list (s.toList.map (fun c => PyVal.str (String.singleton c)))

/-- An error the constructor can raise: the NameError from the undefined
variable in the texts branch, or an AssertionError from one of the two
type assertions. -/
inductive PyError where
  | nameError (undefined : String)
  | assertionError (msg : String)
deriving DecidableEq

/-- tf.lookup.TextFileIndex: which part of a vocabulary-file line supplies
a key or a value. -/
inductive TextFileIndex where
  | wholeLine
  | lineNumber
deriving DecidableEq

/-- The tensor element types the module mentions. -/
inductive DType where
  | string
  | int64
deriving DecidableEq

/-- The parameters the module passes to tf.lookup.TextFileInitializer. -/
structure TextFileInitSpec where
  file : String
  key_dtype : DType
  key_index : TextFileIndex
  value_dtype : DType
  value_index : TextFileIndex
  delimiter : String
deriving DecidableEq

/-- The parameters the module passes to tf.lookup.StaticVocabularyTable:
the file-based table contents and the number of out-of-vocabulary hash
buckets. -/
structure StaticVocabularyTable where
  table_init : TextFileInitSpec
  num_oov_buckets : Nat
deriving DecidableEq

/-- Dataset._create_lookup_table (src/lib/data.py lines 71-86): builds a
TextFileInitializer with the whole line as string key and the line number
as int64 value, then wraps it in a StaticVocabularyTable. The call at line
86 passes the literal 1 as num_oov_buckets, not the parameter. -/
def _create_lookup_table (file : String) (num_oov_buckets : Nat) : StaticVocabularyTable :=
  let table_init : TextFileInitSpec :=
    { file := file
      key_dtype := DType.string
      key_index := TextFileIndex.wholeLine
      value_dtype := DType.int64
      value_index := TextFileIndex.lineNumber
      delimiter := "\n" }
  let _ := num_oov_buckets
  { table_init := table_init, num_oov_buckets := 1 }

/-- The state of a constructed Dataset object: the attributes
Dataset.__init__ stores on self. -/
structure Dataset where
  texts : PyVal
  targets : PyVal
  batch_size : Nat
  shuffle : Bool
  seed : Nat
  threads : Nat
  prefetch : Nat
  name : String
  word_table : StaticVocabularyTable
  tag_table : StaticVocabularyTable
  buffer_size : Nat

/-- The buffer-size plumbing at lines 65-69: a falsy buffer_size (None or 0)
is replaced by batch_size * 3, a truthy one is kept. -/
def effective_buffer_size (batch_size : Nat) (buffer_size : Option Nat) : Nat :=
  match buffer_size with
  | Option.none => batch_size * 3
  | Option.some 0 => batch_size * 3
  | Option.some b => b

/-- Default argument values of Dataset.__init__ (line 18 of
src/lib/data.py). -/
def default_batch_size : Nat := 16

/-- Default of the shuffle argument at line 18. -/
def default_shuffle : Bool := true

/-- Default of the buffer_size argument at line 18: the literal 239
(the docstring at line 33 instead claims the default is None). -/
def default_buffer_size : Option Nat := Option.some 239

/-- Default of the seed argument at line 18. -/
def default_seed : Nat := 1997

/-- Default of the threads argument at line 18. -/
def default_threads : Nat := 4

/-- Default of the prefetch argument at line 18. -/
def default_prefetch : Nat := 1

/-- Dataset.__init__ (lines 18-69). In source order: if texts is a string
the branch evaluates list(text) where text is undefined, a NameError; if
targets is a string it becomes list(targets), the list of its characters;
the remaining attributes are stored; word_table and tag_table must be
strings (AssertionError otherwise) and are turned into lookup tables; the
shuffle buffer size is batch_size * 3 when buffer_size is falsy. -/
def Dataset.init (texts targets word_table tag_table : PyVal)
    (batch_size : Nat) (shuffle : Bool) (buffer_size : Option Nat)
    (seed threads : Nat) (prefetch : Nat) (name : String) :
    Except PyError Dataset :=
  match texts with
  | PyVal.str _ => Except.error (PyError.nameError "text")
  | texts =>
    let targets := match targets with
      | PyVal.str s => pyListOfStr s
      | t => t
    match word_table with
    | PyVal.str word_path =>
      let wt := _create_lookup_table word_path 1
      match tag_table with
      | PyVal.str tag_path =>
        let tt := _create_lookup_table tag_path 1
        Except.ok
          { texts := texts
            targets := targets
            batch_size := batch_size
            shuffle := shuffle
            seed := seed
            threads := threads
            prefetch := prefetch
            name := name
            word_table := wt
            tag_table := tt
            buffer_size := effective_buffer_size batch_size buffer_size }
      | _ => Except.error (PyError.assertionError "Tag table must be string type")
    | _ => Except.error (PyError.assertionError "Word table must be string type")

/-- The per-element functions mapped over the two line streams: process_text
with the word table, process_target with the tag table (imported from
lib/utils, applied at lines 101-102). -/
inductive MapFn where
  | processText (word_table : StaticVocabularyTable)
  | processTarget (tag_table : StaticVocabularyTable)
deriving DecidableEq

/-- A tf.TensorShape: a list of dimensions, None for a dynamic one. -/
structure TensorShape where
  dims : List (Option Nat)
deriving DecidableEq

/-- A padding value together with its dtype, as built by tf.constant at
line 112. -/
structure PadValue where
  value : Int
  dtype : DType
deriving DecidableEq

/-- The lazy TensorFlow dataset pipeline the module assembles: each
constructor is one framework call with the parameters the repository
passes to it. -/
inductive Pipeline where
  | textLineDataset (paths : PyVal)
  | map (src : Pipeline) (fn : MapFn) (num_parallel_calls : Nat)
  | zip (fst snd : Pipeline)
  | shuffle (src : Pipeline) (buffer_size : Nat) (seed : Nat)
  | paddedBatch (src : Pipeline) (batch_size : Nat)
      (padded_shapes : TensorShape × TensorShape)
      (padding_values : PadValue × PadValue)
  | prefetchStep (src : Pipeline) (depth : Nat)

/-- Dataset._process (lines 88-122): map both streams with the configured
number of parallel calls, zip, shuffle when the flag is set (with the
stored buffer size and seed), pad-and-batch with shapes ([None],
[None, None]) and int64 zero padding values, then prefetch. -/
def Dataset._process (self : Dataset) (texts targets : Pipeline) : Pipeline :=
  let texts := Pipeline.map texts (MapFn.processText self.word_table) self.threads
  let targets := Pipeline.map targets (MapFn.processTarget self.tag_table) self.threads
  let dataset := Pipeline.zip texts targets
  let dataset :=
    if self.shuffle then Pipeline.shuffle dataset self.buffer_size self.seed
    else dataset
  let padded_shapes : TensorShape × TensorShape :=
    (⟨[Option.none]⟩, ⟨[Option.none, Option.none]⟩)
  let padding_values : PadValue × PadValue :=
    (⟨0, DType.int64⟩, ⟨0, DType.int64⟩)
  let dataset := Pipeline.paddedBatch dataset self.batch_size padded_shapes padding_values
  Pipeline.prefetchStep dataset self.prefetch

/-- Dataset.__call__ (lines 124-132): read the text and target line
streams, then process them. -/
def Dataset.call (self : Dataset) : Pipeline :=
  self._process (Pipeline.textLineDataset self.texts) (Pipeline.textLineDataset self.targets)

/-- The (buffer size, seed) parameter pairs of the shuffle steps of a
pipeline, outermost first. -/
def Pipeline.shuffleParams : Pipeline → List (Nat × Nat)
  | Pipeline.textLineDataset _ => []
  | Pipeline.map src _ _ => src.shuffleParams
  | Pipeline.zip fst snd => fst.shuffleParams ++ snd.shuffleParams
  | Pipeline.shuffle src b s => (b, s) :: src.shuffleParams
  | Pipeline.paddedBatch src _ _ _ => src.shuffleParams
  | Pipeline.prefetchStep src _ => src.shuffleParams

/-- The num_parallel_calls arguments of the map steps of a pipeline,
outermost first (for a zip, the text branch before the target branch). -/
def Pipeline.mapParallelism : Pipeline → List Nat
  | Pipeline.textLineDataset _ => []
  | Pipeline.map src _ n => n :: src.mapParallelism
  | Pipeline.zip fst snd => fst.mapParallelism ++ snd.mapParallelism
  | Pipeline.shuffle src _ _ => src.mapParallelism
  | Pipeline.paddedBatch src _ _ _ => src.mapParallelism
  | Pipeline.prefetchStep src _ => src.mapParallelism

/-- The depth arguments of the prefetch steps of a pipeline, outermost
first. -/
def Pipeline.prefetchDepths : Pipeline → List Nat
  | Pipeline.textLineDataset _ => []
  | Pipeline.map src _ _ => src.prefetchDepths
  | Pipeline.zip fst snd => fst.prefetchDepths ++ snd.prefetchDepths
  | Pipeline.shuffle src _ _ => src.prefetchDepths
  | Pipeline.paddedBatch src _ _ _ => src.prefetchDepths
  | Pipeline.prefetchStep src d => d :: src.prefetchDepths

/-!
Executable semantics of the padded batching step, as parameterized by the
module: elements are pairs of a token-id row (one dynamic dimension) and a
tag-label matrix (two dynamic dimensions); the stream is cut into
consecutive groups of batch_size elements and every group is padded with
the padding value to the maximum extent of each dynamic dimension within
the group.
-/

/-- One element of the zipped stream entering padded_batch: a token-id row
and a tag-label matrix of int64 values. -/
def PairElem := List Int × List (List Int)

/-- Cut a list into consecutive groups of n elements (the last group may be
shorter); for n = 0 there are no groups. -/
def chunks (n : Nat) (xs : List α) : List (List α) :=
  match n, xs with
  | 0, _ => []
  | _ + 1, [] => []
  | m + 1, x :: rest =>
    have : (rest.drop m).length < (x :: rest).length := by
      rw [List.length_drop, List.length_cons]
      omega
    (x :: rest.take m) :: chunks (m + 1) (rest.drop m)
termination_by xs.length

/-- Maximum of a list of naturals, 0 for the empty list. -/
def natMax (l : List Nat) : Nat := l.foldr max 0

/-- Pad a row on the right with the padding value to length n (a row
already at least that long is kept). -/
def padRow (pad : Int) (n : Nat) (xs : List Int) : List Int :=
  xs ++ List.replicate (n - xs.length) pad

/-- Pad a matrix to r rows of c entries: every row is padded to c and
all-padding rows are appended up to r. -/
def padMatrix (pad : Int) (r c : Nat) (m : List (List Int)) : List (List Int) :=
  m.map (padRow pad c) ++ List.replicate (r - m.length) (List.replicate c pad)

/-- Pad one group: tokens to the maximum row length in the group, tag
matrices to the maximum row and column counts in the group. -/
def padGroup (pad : Int) (b : List PairElem) :
    List (List Int) × List (List (List Int)) :=
  let m := natMax (b.map (fun p => p.1.length))
  let r := natMax (b.map (fun p => p.2.length))
  let c := natMax (b.map (fun p => natMax (p.2.map List.length)))
  (b.map (fun p => padRow pad m p.1), b.map (fun p => padMatrix pad r c p.2))

/-- The padded_batch semantics with the parameters the module passes:
chunk into groups of batch_size and pad each group. -/
def paddedBatchSem (batch_size : Nat) (pad : Int) (xs : List PairElem) :
    List (List (List Int) × List (List (List Int))) :=
  (chunks batch_size xs).map (padGroup pad)

/-- A sample constructed Dataset, with the default configuration of
Dataset.__init__. -/
def sampleDataset : Dataset :=
  { texts := PyVal.list [PyVal.str "train_text.txt"]
    targets := PyVal.list [PyVal.str "train_tags.txt"]
    batch_size := default_batch_size
    shuffle := default_shuffle
    seed := default_seed
    threads := default_threads
    prefetch := default_prefetch
    name := "Dataset Loader"
    word_table := _create_lookup_table "words.txt" 1
    tag_table := _create_lookup_table "tags.txt" 1
    buffer_size := 239 }

/-! Helper lemmas about the padded-batch semantics. -/

theorem mem_chunks {α : Type _} {n : Nat} {xs b : List α} (hb : b ∈ chunks n xs) :
    0 < b.length ∧ b.length ≤ n ∧ ∀ x ∈ b, x ∈ xs := by
  induction n, xs using chunks.induct with
  | case1 xs => simp [chunks] at hb
  | case2 m => simp [chunks] at hb
  | case3 m x rest hlt ih =>
    rw [chunks] at hb
    rcases List.mem_cons.mp hb with h | h
    · subst h
      refine ⟨by simp, by simp [List.length_take], ?_⟩
      intro y hy
      rcases List.mem_cons.mp hy with h | h
      · simp [h]
      · exact List.mem_cons_of_mem x (List.take_subset m rest h)
    · obtain ⟨h1, h2, h3⟩ := ih h
      exact ⟨h1, h2, fun y hy =>
        List.mem_cons_of_mem x (List.drop_subset m rest (h3 y hy))⟩

theorem chunks_join {α : Type _} {n : Nat} (hn : 0 < n) (xs : List α) :
    (chunks n xs).flatten = xs := by
  induction n, xs using chunks.induct with
  | case1 xs => omega
  | case2 m => simp [chunks]
  | case3 m x rest hlt ih =>
    rw [chunks, List.flatten_cons, ih hn, List.cons_append, List.take_append_drop]

theorem le_natMax_of_mem {l : List Nat} {x : Nat} (h : x ∈ l) : x ≤ natMax l := by
  induction l with
  | nil => cases h
  | cons a l ih =>
    rcases List.mem_cons.mp h with rfl | h
    · exact Nat.le_max_left _ _
    · exact Nat.le_trans (ih h) (Nat.le_max_right _ _)

theorem padRow_length_of_le {pad : Int} {n : Nat} {xs : List Int}
    (h : xs.length ≤ n) : (padRow pad n xs).length = n := by
  simp [padRow]
  omega

theorem padMatrix_length_of_le {pad : Int} {r c : Nat} {m : List (List Int)}
    (h : m.length ≤ r) : (padMatrix pad r c m).length = r := by
  simp [padMatrix]
  omega

theorem padMatrix_row_length {pad : Int} {r c : Nat} {m : List (List Int)}
    (hm : ∀ row ∈ m, row.length ≤ c) :
    ∀ row ∈ padMatrix pad r c m, row.length = c := by
  intro row hrow
  rcases List.mem_append.mp hrow with h | h
  · obtain ⟨orig, ho, rfl⟩ := List.mem_map.mp h
    exact padRow_length_of_le (hm orig ho)
  · rw [List.eq_of_mem_replicate h]
    simp

/-! The claims. -/

/-- Claim C1: for every vocabulary file path, _create_lookup_table builds
its table from a TextFileInitializer on that file with the whole line as
the string key, the line number as the int64 value, and a positive number
of out-of-vocabulary hash buckets. -/
theorem create_lookup_table_whole_line_to_line_number (file : String) (n : Nat) :
    (_create_lookup_table file n).table_init.file = file ∧
    (_create_lookup_table file n).table_init.key_dtype = DType.string ∧
    (_create_lookup_table file n).table_init.key_index = TextFileIndex.wholeLine ∧
    (_create_lookup_table file n).table_init.value_dtype = DType.int64 ∧
    (_create_lookup_table file n).table_init.value_index = TextFileIndex.lineNumber ∧
    0 < (_create_lookup_table file n).num_oov_buckets :=
  ⟨rfl, rfl, rfl, rfl, rfl, Nat.one_pos⟩

/-- Claim C2: calling a constructed Dataset assembles the pipeline in
exactly this order: two TextLineDataset streams, a map over each, a zip of
the two, a shuffle exactly when the shuffle flag is set (with the stored
buffer size and seed), a padded batch, then a prefetch. -/
theorem call_assembles_pipeline_in_order (d : Dataset) :
    d.call =
      Pipeline.prefetchStep
        (Pipeline.paddedBatch
          (if d.shuffle then
            Pipeline.shuffle
              (Pipeline.zip
                (Pipeline.map (Pipeline.textLineDataset d.texts)
                  (MapFn.processText d.word_table) d.threads)
                (Pipeline.map (Pipeline.textLineDataset d.targets)
                  (MapFn.processTarget d.tag_table) d.threads))
              d.buffer_size d.seed
          else
            Pipeline.zip
              (Pipeline.map (Pipeline.textLineDataset d.texts)
                (MapFn.processText d.word_table) d.threads)
              (Pipeline.map (Pipeline.textLineDataset d.targets)
                (MapFn.processTarget d.tag_table) d.threads))
          d.batch_size
          (⟨[Option.none]⟩, ⟨[Option.none, Option.none]⟩)
          (⟨0, DType.int64⟩, ⟨0, DType.int64⟩))
        d.prefetch := rfl

/-- Claim C8: the num_oov_buckets argument of _create_lookup_table is
ignored: the table always has exactly one out-of-vocabulary bucket, and
any two argument values give the same table. -/
theorem num_oov_buckets_argument_ignored (file : String) (n m : Nat) :
    (_create_lookup_table file n).num_oov_buckets = 1 ∧
    _create_lookup_table file n = _create_lookup_table file m :=
  ⟨rfl, rfl⟩

/-- Claim C9: when texts is a single string, the normalization branch of
the constructor evaluates the undefined variable text, so every such call
raises a NameError and never produces a Dataset. -/
theorem single_string_texts_raises_name_error (s : String) (targets wt tt : PyVal)
    (bs : Nat) (sh : Bool) (buf : Option Nat) (sd th pf : Nat) (nm : String) :
    Dataset.init (PyVal.str s) targets wt tt bs sh buf sd th pf nm
      = Except.error (PyError.nameError "text") := rfl

/-- Claim C4: the default of the buffer_size argument is the literal 239,
not None, and on every constructor call the stored shuffle buffer size is
the given buffer_size when it is truthy and batch_size * 3 when it is
falsy (None or 0). -/
theorem effective_buffer_size_plumbing (texts targets wt tt : PyVal) (bs : Nat)
    (sh : Bool) (buf : Option Nat) (sd th pf : Nat) (nm : String) :
    default_buffer_size = Option.some 239 ∧
    default_buffer_size ≠ Option.none ∧
    (effective_buffer_size bs buf =
      if buf = Option.none ∨ buf = Option.some 0 then bs * 3 else buf.getD 0) ∧
    (Dataset.init texts targets wt tt bs sh buf sd th pf nm).map Dataset.buffer_size
      = (Dataset.init texts targets wt tt bs sh buf sd th pf nm).map
          (fun _ => effective_buffer_size bs buf) := by
  refine ⟨rfl, by simp [default_buffer_size], ?_, ?_⟩
  · match buf with
    | Option.none => simp [effective_buffer_size]
    | Option.some 0 => simp [effective_buffer_size]
    | Option.some (b + 1) => simp [effective_buffer_size]
  · cases texts <;> cases wt <;> cases tt <;> simp [Dataset.init, Except.map]

/-- Claim C6: the assembled pipeline passes the configured threads value
as num_parallel_calls to both map steps and the configured prefetch depth
to the single prefetch step. -/
theorem map_parallelism_and_prefetch_depth (d : Dataset) :
    d.call.mapParallelism = [d.threads, d.threads] ∧
    d.call.prefetchDepths = [d.prefetch] := by
  cases hs : d.shuffle <;>
    simp [Dataset.call, Dataset._process, hs, Pipeline.mapParallelism,
      Pipeline.prefetchDepths]

/-- Claim C7: pipeline construction is deterministic: two Dataset objects
with identical configuration assemble the same pipeline, and when the
shuffle flag is set the single shuffle step receives exactly the stored
buffer size and the configured fixed seed. -/
theorem identical_config_same_pipeline (d e : Dataset) (h : d = e) :
    d.call = e.call ∧
    (d.shuffle = true →
      d.call.shuffleParams = [(d.buffer_size, d.seed)]) := by
  subst h
  refine ⟨rfl, fun hs => ?_⟩
  simp [Dataset.call, Dataset._process, hs, Pipeline.shuffleParams]

/-- Witness for claim C7 at the sample Dataset with the default
configuration. -/
theorem identical_config_same_pipeline_witness :
    sampleDataset.call = sampleDataset.call ∧
    (sampleDataset.shuffle = true →
      sampleDataset.call.shuffleParams
        = [(sampleDataset.buffer_size, sampleDataset.seed)]) :=
  identical_config_same_pipeline sampleDataset sampleDataset rfl

/-- Counterexample for claim C3: with texts a single string and word_table
an integer, word_table is not a string yet no AssertionError is raised:
the NameError of the texts branch preempts the assertion, so the stated
iff fails at this input. -/
theorem assertion_error_iff_counterexample :
    ¬ ((∃ msg, Dataset.init (PyVal.str "text.txt") (PyVal.list []) (PyVal.int 0)
          (PyVal.str "tags.txt") 16 true (Option.some 239) 1997 4 1 "n"
          = Except.error (PyError.assertionError msg))
        ↔ ((PyVal.int 0).isStr = false ∨ (PyVal.str "tags.txt").isStr = false)) := by
  intro hiff
  obtain ⟨msg, hmsg⟩ := hiff.mpr (Or.inl rfl)
  simp [Dataset.init] at hmsg

/-- Claim C3 as amended: provided texts is not a single string (otherwise
the constructor fails earlier with a NameError), the constructor raises an
AssertionError if and only if word_table or tag_table is not a string, and
the only errors it ever raises itself are those two assertions. -/
theorem assertion_error_iff_table_not_string (texts targets wt tt : PyVal)
    (bs : Nat) (sh : Bool) (buf : Option Nat) (sd th pf : Nat) (nm : String)
    (h : texts.isStr = false) :
    ((∃ msg, Dataset.init texts targets wt tt bs sh buf sd th pf nm
        = Except.error (PyError.assertionError msg))
      ↔ (wt.isStr = false ∨ tt.isStr = false)) ∧
    (∀ e, Dataset.init texts targets wt tt bs sh buf sd th pf nm
        = Except.error e →
      e = PyError.assertionError "Word table must be string type" ∨
      e = PyError.assertionError "Tag table must be string type") := by
  cases texts <;> simp [PyVal.isStr] at h <;>
    cases wt <;> cases tt <;>
      simp [Dataset.init, PyVal.isStr]

/-- Witness for claim C3 as amended: texts a list, word_table an integer,
tag_table a string. -/
theorem assertion_error_iff_table_not_string_witness :
    ((∃ msg, Dataset.init (PyVal.list []) (PyVal.list []) (PyVal.int 0)
        (PyVal.str "tags.txt") 16 true (Option.some 239) 1997 4 1 "n"
        = Except.error (PyError.assertionError msg))
      ↔ ((PyVal.int 0).isStr = false ∨ (PyVal.str "tags.txt").isStr = false)) ∧
    (∀ e, Dataset.init (PyVal.list []) (PyVal.list []) (PyVal.int 0)
        (PyVal.str "tags.txt") 16 true (Option.some 239) 1997 4 1 "n"
        = Except.error e →
      e = PyError.assertionError "Word table must be string type" ∨
      e = PyError.assertionError "Tag table must be string type") :=
  assertion_error_iff_table_not_string (PyVal.list []) (PyVal.list [])
    (PyVal.int 0) (PyVal.str "tags.txt") 16 true (Option.some 239) 1997 4 1 "n" rfl

/-- Claim C10: whenever the constructor succeeds with targets a single
string, the stored targets attribute is the list of the one-character
strings of that string, not a one-element list holding the path. -/
theorem single_string_targets_stored_as_chars (s : String) (texts wt tt : PyVal)
    (bs : Nat) (sh : Bool) (buf : Option Nat) (sd th pf : Nat) (nm : String)
    (d : Dataset)
    (h : Dataset.init texts (PyVal.str s) wt tt bs sh buf sd th pf nm
      = Except.ok d) :
    d.targets = PyVal.list (s.toList.map (fun c => PyVal.str (String.singleton c))) := by
  cases texts <;> cases wt <;> cases tt <;>
    simp [Dataset.init] at h <;>
    simp [← h, pyListOfStr]

/-- Witness for claim C10: the constructor applied to the targets string
"ab" stores the two-character list. -/
theorem single_string_targets_stored_as_chars_witness :
    ({ texts := PyVal.list [PyVal.str "x.txt"]
       targets := pyListOfStr "ab"
       batch_size := 16
       shuffle := true
       seed := 1997
       threads := 4
       prefetch := 1
       name := "n"
       word_table := _create_lookup_table "w.txt" 1
       tag_table := _create_lookup_table "t.txt" 1
       buffer_size := 239 } : Dataset).targets
      = PyVal.list ("ab".toList.map (fun c => PyVal.str (String.singleton c))) :=
  single_string_targets_stored_as_chars "ab" (PyVal.list [PyVal.str "x.txt"])
    (PyVal.str "w.txt") (PyVal.str "t.txt") 16 true (Option.some 239) 1997 4 1 "n"
    _ rfl

theorem chunks_singleton {α : Type _} (m : Nat) (x : α) :
    chunks (m + 1) [x] = [[x]] := by
  rw [chunks]
  simp [chunks]

/-- Claim C5: the assembled pipeline batches with the configured
batch_size, the padded shapes ([None], [None, None]) and the int64 padding
value 0; and under the padded-batch semantics so parameterized every batch
is a pair of equal-length groups of at most batch_size elements in which
every token row is an input row padded on the right with 0 and all rows
are aligned to a common length, and every tag matrix is an input matrix
padded with 0 with all dimensions aligned across the batch. -/
theorem padded_batch_shapes_and_zero_padding (d : Dataset) (xs : List PairElem)
    (b : List (List Int) × List (List (List Int)))
    (hb : b ∈ paddedBatchSem d.batch_size 0 xs) :
    (∃ inner, d.call = Pipeline.prefetchStep
        (Pipeline.paddedBatch inner d.batch_size
          (⟨[Option.none]⟩, ⟨[Option.none, Option.none]⟩)
          (⟨0, DType.int64⟩, ⟨0, DType.int64⟩)) d.prefetch) ∧
    0 < b.1.length ∧ b.1.length ≤ d.batch_size ∧ b.1.length = b.2.length ∧
    (∀ t ∈ b.1, ∃ p ∈ xs, t = p.1 ++ List.replicate (t.length - p.1.length) (0 : Int)) ∧
    (∀ t ∈ b.1, ∀ u ∈ b.1, t.length = u.length) ∧
    (∀ g ∈ b.2, ∃ p ∈ xs, ∃ r c, g = padMatrix 0 r c p.2) ∧
    (∀ g ∈ b.2, ∀ g2 ∈ b.2, g.length = g2.length ∧
      ∀ row ∈ g, ∀ row2 ∈ g2, row.length = row2.length) := by
  obtain ⟨c0, hc0, rfl⟩ := List.mem_map.mp hb
  obtain ⟨hpos, hle, hsub⟩ := mem_chunks hc0
  have hfst : (padGroup 0 c0).1
      = c0.map (fun p => padRow 0 (natMax (c0.map (fun p => p.1.length))) p.1) := rfl
  have hsnd : (padGroup 0 c0).2
      = c0.map (fun p => padMatrix 0 (natMax (c0.map (fun p => p.2.length)))
          (natMax (c0.map (fun p => natMax (p.2.map List.length)))) p.2) := rfl
  refine ⟨⟨_, rfl⟩, ?_, ?_, ?_, ?_, ?_, ?_, ?_⟩
  · rw [hfst, List.length_map]
    exact hpos
  · rw [hfst, List.length_map]
    exact hle
  · rw [hfst, hsnd, List.length_map, List.length_map]
  · rw [hfst]
    intro t ht
    obtain ⟨p, hp, rfl⟩ := List.mem_map.mp ht
    have hlen : p.1.length ≤ natMax (c0.map (fun p => p.1.length)) :=
      le_natMax_of_mem (List.mem_map_of_mem _ hp)
    refine ⟨p, hsub p hp, ?_⟩
    rw [padRow_length_of_le hlen]
    rfl
  · rw [hfst]
    intro t ht u hu
    obtain ⟨p, hp, rfl⟩ := List.mem_map.mp ht
    obtain ⟨q, hq, rfl⟩ := List.mem_map.mp hu
    have hlp : p.1.length ≤ natMax (c0.map (fun p => p.1.length)) :=
      le_natMax_of_mem (List.mem_map_of_mem _ hp)
    have hlq : q.1.length ≤ natMax (c0.map (fun p => p.1.length)) :=
      le_natMax_of_mem (List.mem_map_of_mem _ hq)
    rw [padRow_length_of_le hlp, padRow_length_of_le hlq]
  · rw [hsnd]
    intro g hg
    obtain ⟨p, hp, rfl⟩ := List.mem_map.mp hg
    exact ⟨p, hsub p hp, _, _, rfl⟩
  · rw [hsnd]
    intro g hg g2 hg2
    obtain ⟨p, hp, rfl⟩ := List.mem_map.mp hg
    obtain ⟨q, hq, rfl⟩ := List.mem_map.mp hg2
    have hpR : p.2.length ≤ natMax (c0.map (fun p => p.2.length)) :=
      le_natMax_of_mem (List.mem_map_of_mem _ hp)
    have hqR : q.2.length ≤ natMax (c0.map (fun p => p.2.length)) :=
      le_natMax_of_mem (List.mem_map_of_mem _ hq)
    have hpC : ∀ row ∈ p.2,
        row.length ≤ natMax (c0.map (fun p => natMax (p.2.map List.length))) := by
      intro row hrow
      exact Nat.le_trans (le_natMax_of_mem (List.mem_map_of_mem _ hrow))
        (le_natMax_of_mem (List.mem_map_of_mem _ hp))
    have hqC : ∀ row ∈ q.2,
        row.length ≤ natMax (c0.map (fun p => natMax (p.2.map List.length))) := by
      intro row hrow
      exact Nat.le_trans (le_natMax_of_mem (List.mem_map_of_mem _ hrow))
        (le_natMax_of_mem (List.mem_map_of_mem _ hq))
    refine ⟨?_, ?_⟩
    · rw [padMatrix_length_of_le hpR, padMatrix_length_of_le hqR]
    · intro row hrow row2 hrow2
      rw [padMatrix_row_length hpC row hrow, padMatrix_row_length hqC row2 hrow2]

/-- Witness for claim C5: the single batch the semantics produces from the
one-element stream [([1], [[2]])] with the sample Dataset. -/
theorem padded_batch_shapes_and_zero_padding_witness :
    (∃ inner, sampleDataset.call = Pipeline.prefetchStep
        (Pipeline.paddedBatch inner sampleDataset.batch_size
          (⟨[Option.none]⟩, ⟨[Option.none, Option.none]⟩)
          (⟨0, DType.int64⟩, ⟨0, DType.int64⟩)) sampleDataset.prefetch) ∧
    0 < ([[(1 : Int)]] : List (List Int)).length ∧
    ([[(1 : Int)]] : List (List Int)).length ≤ sampleDataset.batch_size ∧
    ([[(1 : Int)]] : List (List Int)).length
      = ([[[(2 : Int)]]] : List (List (List Int))).length ∧
    (∀ t ∈ ([[(1 : Int)]] : List (List Int)),
      ∃ p ∈ ([(([1], [[2]]) : PairElem)] : List PairElem),
        t = p.1 ++ List.replicate (t.length - p.1.length) (0 : Int)) ∧
    (∀ t ∈ ([[(1 : Int)]] : List (List Int)),
      ∀ u ∈ ([[(1 : Int)]] : List (List Int)), t.length = u.length) ∧
    (∀ g ∈ ([[[(2 : Int)]]] : List (List (List Int))),
      ∃ p ∈ ([(([1], [[2]]) : PairElem)] : List PairElem),
        ∃ r c, g = padMatrix 0 r c p.2) ∧
    (∀ g ∈ ([[[(2 : Int)]]] : List (List (List Int))),
      ∀ g2 ∈ ([[[(2 : Int)]]] : List (List (List Int))),
        g.length = g2.length ∧
        ∀ row ∈ g, ∀ row2 ∈ g2, row.length = row2.length) :=
  padded_batch_shapes_and_zero_padding sampleDataset [(([1], [[2]]) : PairElem)]
    ([[(1 : Int)]], [[[(2 : Int)]]])
    (by
      show ([[(1 : Int)]], [[[(2 : Int)]]])
        ∈ (chunks (15 + 1) [(([1], [[2]]) : PairElem)]).map (padGroup 0)
      rw [chunks_singleton]
      simp [padGroup, natMax, padRow, padMatrix])

end BiLSTMCRF
